import Mathlib

/-!
Verification development for the investing-mcp repository
(`src/tools/polygon.py`): a shallow embedding of the six Polygon stock
tools and the HTTP client adapter, with theorems settling the frozen
claims about the natural-language specification.

Python semantics are modelled as follows: JSON/Python values are the
inductive type `Val`; Python exceptions are `Except String` (the string
is `str(e)`); machine floats and ints are modelled uniformly as `Rat`
(exact arithmetic; the concrete inputs used below avoid binary-float
rounding ties); the wall clock and local-time rendering of
`datetime.now()` / `datetime.fromtimestamp` are environment parameters
(`Env`); the network is a function parameter (`Http`).
-/

namespace InvestingMCP

/-- A Python/JSON value, as produced by `response.json()`. -/
inductive Val where
  | none
  | str (s : String)
  | num (q : Rat)
  | bool (b : Bool)
  | list (xs : List Val)
  | dict (fields : List (String × Val))

/-- Python `==` (fuel-bounded for the nested list/dict cases; the source
only ever compares response fields against string literals). `bool`
compares equal to the corresponding number, as in Python. -/
def valEqFuel : Nat → Val → Val → Bool
  | _, .str a, .str b => a == b
  | _, .num a, .num b => a == b
  | _, .bool a, .bool b => a == b
  | _, .num a, .bool b => a == (if b then (1 : Rat) else 0)
  | _, .bool a, .num b => (if a then (1 : Rat) else 0) == b
  | _, .none, .none => true
  | fuel + 1, .list a, .list b =>
      a.length == b.length && (a.zip b).all fun p => valEqFuel fuel p.1 p.2
  | fuel + 1, .dict a, .dict b =>
      a.length == b.length && a.all fun kv =>
        match kv.2, (b.map fun p => (p.1, valEqFuel fuel kv.2 p.2)).lookup kv.1 with
        | _, some r => r
        | _, Option.none => false
  | _, _, _ => false

instance : BEq Val := ⟨valEqFuel 1000⟩

/-- Python truthiness, as used in `data.get("results")` guards. -/
def truthy : Val → Bool
  | .none => false
  | .str s => !s.isEmpty
  | .num q => !(q == 0)
  | .bool b => b
  | .list xs => !xs.isEmpty
  | .dict fs => !fs.isEmpty

/-- Python type name, used in exception texts. `num` is rendered as
`float` (ints and floats are conflated by the `Rat` model). -/
def pyTypeName : Val → String
  | .none => "NoneType"
  | .str _ => "str"
  | .num _ => "float"
  | .bool _ => "bool"
  | .list _ => "list"
  | .dict _ => "dict"

/-- First binding of a key in a field list (Python dicts cannot hold
duplicate keys, so this is exact). -/
def lookupField : List (String × Val) → String → Option Val
  | [], _ => Option.none
  | (k, v) :: rest, key => if k == key then some v else lookupField rest key

/-- Python `v.get(key, dflt)`: raises `AttributeError` on non-dicts. -/
def dictGet (v : Val) (key : String) (dflt : Val) : Except String Val :=
  match v with
  | .dict fs => .ok ((lookupField fs key).getD dflt)
  | _ => .error ("\x27" ++ pyTypeName v ++ "\x27 object has no attribute \x27get\x27")

/-- Python `v[key]` on a dict: raises `KeyError` when absent. -/
def dictItem (v : Val) (key : String) : Except String Val :=
  match v with
  | .dict fs =>
      match lookupField fs key with
      | some x => .ok x
      | Option.none => .error ("\x27" ++ key ++ "\x27")
  | _ => .error ("\x27" ++ pyTypeName v ++ "\x27 object is not subscriptable")

/-- Python `v[i]` on a list, with negative-index wrap-around. -/
def listIndex (v : Val) (i : Int) : Except String Val :=
  match v with
  | .list xs =>
      let n : Int := xs.length
      let j : Int := if i < 0 then i + n else i
      if 0 ≤ j ∧ j < n then .ok (xs.getD j.toNat Val.none)
      else .error "list index out of range"
  | _ => .error ("\x27" ++ pyTypeName v ++ "\x27 object is not subscriptable")

/-- Python list slice `xs[s:]` (start index may be negative). -/
def pySliceFrom (xs : List Val) (s : Int) : List Val :=
  let n : Int := xs.length
  let start : Int := if s < 0 then max (n + s) 0 else min s n
  xs.drop start.toNat

/-- Python `v[s:]` on a value. -/
def pySliceVal (v : Val) (s : Int) : Except String (List Val) :=
  match v with
  | .list xs => .ok (pySliceFrom xs s)
  | _ => .error ("\x27" ++ pyTypeName v ++ "\x27 object is not subscriptable")

/-- Python `v[:n]` (head slice), as used for description truncation. -/
def pySliceToVal (v : Val) (n : Nat) : Except String Val :=
  match v with
  | .str s => .ok (.str (String.mk (s.data.take n)))
  | .list xs => .ok (.list (xs.take n))
  | _ => .error ("\x27" ++ pyTypeName v ++ "\x27 object is not subscriptable")

/-- Python `for x in v` (the element sequence): lists yield elements,
strings yield characters, dicts yield their keys. -/
def pyIterate (v : Val) : Except String (List Val) :=
  match v with
  | .list xs => .ok xs
  | .str s => .ok (s.data.map fun c => .str (String.mk [c]))
  | .dict fs => .ok (fs.map fun kv => .str kv.1)
  | _ => .error ("\x27" ++ pyTypeName v ++ "\x27 object is not iterable")

/-- Numeric coercion for arithmetic: Python `bool` is an `int` subclass. -/
def toNum : Val → Option Rat
  | .num q => some q
  | .bool b => some (if b then 1 else 0)
  | _ => Option.none

/-- Python `a - b` on values. -/
def valSub (a b : Val) : Except String Rat :=
  match toNum a, toNum b with
  | some x, some y => .ok (x - y)
  | _, _ =>
      .error ("unsupported operand type(s) for -: \x27" ++ pyTypeName a ++
        "\x27 and \x27" ++ pyTypeName b ++ "\x27")

/-- Python `a / b` on values (true division; raises `ZeroDivisionError`). -/
def valDiv (a b : Val) : Except String Rat :=
  match toNum a, toNum b with
  | some x, some y => if y = 0 then .error "division by zero" else .ok (x / y)
  | _, _ =>
      .error ("unsupported operand type(s) for /: \x27" ++ pyTypeName a ++
        "\x27 and \x27" ++ pyTypeName b ++ "\x27")

/-- Round to the nearest integer, ties to even (IEEE/Python rounding;
the concrete inputs below are tie-free, so the exact tie rule is
unexercised). -/
def roundHalfEven (q : Rat) : Int :=
  let f : Int := Rat.floor q
  let frac : Rat := q - f
  if frac < 1 / 2 then f
  else if 1 / 2 < frac then f + 1
  else if f % 2 = 0 then f else f + 1

/-- Python `f"{q:.2f}"` for a number: exactly two decimal digits. -/
def ratFixed2 (q : Rat) : String :=
  let n : Int := roundHalfEven (q * 100)
  let a : Nat := n.natAbs
  (if n < 0 then "-" else "") ++ toString (a / 100) ++ "." ++
    (if a % 100 < 10 then "0" else "") ++ toString (a % 100)

/-- Insert a comma after every three characters of a reversed digit
string. -/
def commaGroup : List Char → List Char
  | d1 :: d2 :: d3 :: d4 :: rest => d1 :: d2 :: d3 :: ',' :: commaGroup (d4 :: rest)
  | other => other

/-- Python `f"{n:,}"` for an integer: thousands separators. -/
def intComma (n : Int) : String :=
  (if n < 0 then "-" else "") ++
    String.mk (commaGroup (toString n.natAbs).data.reverse).reverse

/-- Decimal digits of a rational in `[0, 1)` (fuel-bounded; Python
floats always terminate well within the fuel). -/
def fracDigitsAux : Nat → Rat → String
  | 0, _ => ""
  | fuel + 1, r =>
    if r = 0 then ""
    else
      let d : Int := Rat.floor (r * 10)
      toString d ++ fracDigitsAux fuel (r * 10 - d)

/-- Python `f"{q:,}"` for a number: integral values render with comma
groups and no decimal point, others with their decimal expansion. -/
def commaRender (q : Rat) : String :=
  if q.den = 1 then intComma q.num
  else
    let a : Rat := if q < 0 then -q else q
    let ip : Int := Rat.floor a
    (if q < 0 then "-" else "") ++ intComma ip ++ "." ++ fracDigitsAux 32 (a - ip)

/-- Python `str()` of a number (ints without a decimal point). The model
conflates ints and floats, so a whole-valued float renders as an int;
no operation in the source applies `str()` to a numeric field. -/
def numRepr (q : Rat) : String :=
  if q.den = 1 then toString q.num
  else
    let a : Rat := if q < 0 then -q else q
    let ip : Int := Rat.floor a
    (if q < 0 then "-" else "") ++ toString ip ++ "." ++ fracDigitsAux 32 (a - ip)

/-- Comma-separated join for container `repr`s. -/
def joinCommaSep : List String → String
  | [] => ""
  | [x] => x
  | x :: rest => x ++ ", " ++ joinCommaSep rest

/-- Python `repr()` (fuel-bounded through containers). -/
def pyReprFuel : Nat → Val → String
  | _, .str s => "\x27" ++ s ++ "\x27"
  | _, .num q => numRepr q
  | _, .bool b => if b then "True" else "False"
  | _, .none => "None"
  | 0, .list _ => "[...]"
  | 0, .dict _ => "\x7b...\x7d"
  | fuel + 1, .list xs => "[" ++ joinCommaSep (xs.map (pyReprFuel fuel)) ++ "]"
  | fuel + 1, .dict fs =>
      "\x7b" ++
        joinCommaSep (fs.map fun kv =>
          "\x27" ++ kv.1 ++ "\x27: " ++ pyReprFuel fuel kv.2) ++ "\x7d"

/-- Python `str()` of a value, as interpolated by f-strings. -/
def pyToString : Val → String
  | .str s => s
  | v => pyReprFuel 1000 v

/-- Python `f"{v:.2f}"`: numeric formatting; `bool` formats as an int;
all other types raise. -/
def fmtFixed2 : Val → Except String String
  | .num q => .ok (ratFixed2 q)
  | .bool b => .ok (ratFixed2 (if b then 1 else 0))
  | .str _ => .error "Unknown format code \x27f\x27 for object of type \x27str\x27"
  | v => .error ("unsupported format string passed to " ++ pyTypeName v ++ ".__format__")

/-- Python `f"{v:,}"`: numeric formatting with thousands separators;
strings raise `ValueError`. -/
def fmtComma : Val → Except String String
  | .num q => .ok (commaRender q)
  | .bool b => .ok (if b then "1" else "0")
  | .str _ => .error "Cannot specify \x27,\x27 with \x27s\x27."
  | v => .error ("unsupported format string passed to " ++ pyTypeName v ++ ".__format__")

/-- Python `str.upper()` (ASCII case mapping, which is all the tool
inputs exercise). -/
def pyUpper (s : String) : String := String.mk (s.data.map Char.toUpper)

/-- Whether `pat` occurs at the head of `s`. -/
def leadingMatch : List Char → List Char → Bool
  | [], _ => true
  | _ :: _, [] => false
  | a :: as, b :: bs => a == b && leadingMatch as bs

/-- Whether `pat` occurs anywhere in `s`. -/
def hasSubChars (pat : List Char) : List Char → Bool
  | [] => leadingMatch pat []
  | c :: rest => leadingMatch pat (c :: rest) || hasSubChars pat rest

/-- Substring test on strings. -/
def strContainsStr (s pat : String) : Bool := hasSubChars pat.data s.data

/-- An upstream HTTP response: status code, raw body text, and the
result of `response.json()` (an exception when the body is not JSON). -/
structure HttpResponse where
  status : Nat
  text : String
  jsonBody : Except String Val

/-- The transport: a GET of a url with query parameters. -/
def Http : Type := String → List (String × String) → HttpResponse

/-- Process configuration and wall-clock context of one invocation:
the API key, the `%Y-%m-%d` renderings of now, now − 5 days and
now − 30 days, and the local-time renderings of an epoch-seconds value
used by `datetime.fromtimestamp(...).strftime(...)`. -/
structure Env where
  apiKey : String
  today : String
  daysAgo5 : String
  daysAgo30 : String
  fmtDate : Rat → String
  fmtDateTime : Rat → String

def BASE_URL : String := "https://api.polygon.io"

/-- `params["apikey"] = key`: overwrite when present, else append. -/
def setParam (ps : List (String × String)) (k v : String) : List (String × String) :=
  if ps.any fun p => p.1 == k then
    ps.map fun p => if p.1 == k then (k, v) else p
  else ps ++ [(k, v)]

/-- `make_polygon_request`: inject the API key, GET `BASE_URL ++
endpoint`, return the parsed JSON on status 200 and raise otherwise. -/
def make_polygon_request (apiKey : String) (http : Http) (endpoint : String)
    (params : List (String × String)) : Except String Val :=
  let ps := setParam params "apikey" apiKey
  let resp := http (BASE_URL ++ endpoint) ps
  if resp.status = 200 then resp.jsonBody
  else
    .error ("API request failed with status " ++ toString resp.status ++ ": " ++ resp.text)

/-- The endpoint `get_stock_price` constructs (trailing 5-day window of
daily bars). -/
def gsp_endpoint (env : Env) (symbol : String) : String :=
  "/v2/aggs/ticker/" ++ pyUpper symbol ++ "/range/1/day/" ++ env.daysAgo5 ++ "/" ++ env.today

/-- Lines 69–108 of `get_stock_price`: field extraction with `"N/A"`
defaults, date/change/volume computation and the success report. -/
def price_report (env : Env) (symbol : String) (result_data : Val) : Except String String := do
  let open_price ← dictGet result_data "o" (Val.str "N/A")
  let high_price ← dictGet result_data "h" (Val.str "N/A")
  let low_price ← dictGet result_data "l" (Val.str "N/A")
  let close_price ← dictGet result_data "c" (Val.str "N/A")
  let volume ← dictGet result_data "v" (Val.str "N/A")
  let timestamp ← dictGet result_data "t" (Val.str "N/A")
  let trade_date ←
    if timestamp != Val.str "N/A" then do
      let q ← valDiv timestamp (Val.num 1000)
      pure (env.fmtDate q)
    else pure "N/A"
  let change_info ←
    if open_price != Val.str "N/A" && close_price != Val.str "N/A" then do
      let change_val ← valSub close_price open_price
      let ratio ← valDiv (Val.num change_val) open_price
      let change_pct := ratio * 100
      let change_direction :=
        if change_val > 0 then "📈" else if change_val < 0 then "📉" else "➡️"
      pure ("Change: $" ++ ratFixed2 change_val ++ " (" ++ ratFixed2 change_pct ++
        "%) " ++ change_direction)
    else pure ""
  let volume_formatted ←
    if volume != Val.str "N/A" then fmtComma volume else pure "N/A"
  let oS ← fmtFixed2 open_price
  let hS ← fmtFixed2 high_price
  let lS ← fmtFixed2 low_price
  let cS ← fmtFixed2 close_price
  pure ("\n    📊 **" ++ pyUpper symbol ++ "** - " ++ trade_date ++
    "\n\n    💰 **Price Data:**\n    • Open: $" ++ oS ++
    "\n    • High: $" ++ hS ++ "\n    • Low: $" ++ lS ++ "\n    • Close: $" ++ cS ++
    "\n\n    📈 **Performance:**\n    " ++ change_info ++
    "\n\n    📊 **Volume:** " ++ volume_formatted ++
    " shares\n\n    ℹ️  *Data from most recent trading day*\n    ")

/-- The `try` body of `GetStockPrice`. -/
def get_stock_price_body (env : Env) (http : Http) (symbol : String) : Except String String := do
  let data ← make_polygon_request env.apiKey http (gsp_endpoint env symbol) []
  let status ← dictGet data "status" Val.none
  let resultsOpt ← dictGet data "results" Val.none
  if (status == Val.str "OK" || status == Val.str "DELAYED") && truthy resultsOpt then
    let results ← dictItem data "results"
    let result_data ← listIndex results (-1)
    price_report env symbol result_data
  else do
    let st ← dictGet data "status" (Val.str "Unknown")
    let msg ← dictGet data "error" (Val.str "No additional info")
    pure ("❌ Error: Could not retrieve data for " ++ pyUpper symbol ++
      ".\nStatus: " ++ pyToString st ++ "\nMessage: " ++ pyToString msg)

/-- `GetStockPrice`: the blanket `except` renders any exception as an
error string naming the symbol. -/
def get_stock_price (env : Env) (http : Http) (symbol : String) : String :=
  match get_stock_price_body env http symbol with
  | .ok s => s
  | .error e => "❌ Error fetching stock price for " ++ pyUpper symbol ++ ": " ++ e

/-- The `try` body of `GetStockDetails`. -/
def get_stock_details_body (env : Env) (http : Http) (symbol : String) : Except String String := do
  let data ← make_polygon_request env.apiKey http ("/v3/reference/tickers/" ++ pyUpper symbol) []
  let status ← dictGet data "status" Val.none
  let resultsOpt ← dictGet data "results" Val.none
  if status == Val.str "OK" && truthy resultsOpt then
    let ticker ← dictItem data "results"
    let nameV ← dictGet ticker "name" (Val.str "N/A")
    let tickerV ← dictGet ticker "ticker" (Val.str "N/A")
    let marketV ← dictGet ticker "market" (Val.str "N/A")
    let exchV ← dictGet ticker "primary_exchange" (Val.str "N/A")
    let typeV ← dictGet ticker "type" (Val.str "N/A")
    let currV ← dictGet ticker "currency_name" (Val.str "N/A")
    let activeV ← dictGet ticker "active" (Val.str "N/A")
    let homeV ← dictGet ticker "homepage_url" (Val.str "N/A")
    let descV ← dictGet ticker "description" (Val.str "N/A")
    let descSlice ← pySliceToVal descV 200
    let mcapV ← dictGet ticker "market_cap" (Val.str "N/A")
    let mcapS ← fmtComma mcapV
    pure ("\nCompany: " ++ pyToString nameV ++ "\nSymbol: " ++ pyToString tickerV ++
      "\nMarket: " ++ pyToString marketV ++ "\nPrimary Exchange: " ++ pyToString exchV ++
      "\nType: " ++ pyToString typeV ++ "\nCurrency: " ++ pyToString currV ++
      "\nActive: " ++ pyToString activeV ++ "\nHomepage: " ++ pyToString homeV ++
      "\nDescription: " ++ pyToString descSlice ++ "...\nMarket Cap: $" ++ mcapS ++
      " (if available)\n")
  else pure ("Error: Could not retrieve details for " ++ symbol)

/-- `GetStockDetails`. -/
def get_stock_details (env : Env) (http : Http) (symbol : String) : String :=
  match get_stock_details_body env http symbol with
  | .ok s => s
  | .error e => "Error fetching stock details: " ++ e

/-- The news loop (`for i, item in enumerate(news_items, 1)`), carrying
the accumulated `result` string exactly as the `+=` statements do. -/
def render_news_items : Nat → String → List Val → Except String String
  | _, acc, [] => .ok acc
  | i, acc, item :: rest => do
      let title ← dictGet item "title" (Val.str "N/A")
      let descV ← dictGet item "description" (Val.str "N/A")
      let description ← pySliceToVal descV 150
      let author ← dictGet item "author" (Val.str "N/A")
      let published ← dictGet item "published_utc" (Val.str "N/A")
      let url ← dictGet item "article_url" (Val.str "N/A")
      let acc := acc ++ (toString i ++ ". " ++ pyToString title ++ "\n")
      let acc := acc ++ ("   Author: " ++ pyToString author ++ " | Published: " ++
        pyToString published ++ "\n")
      let acc := acc ++ ("   Description: " ++ pyToString description ++ "...\n")
      let acc := acc ++ ("   URL: " ++ pyToString url ++ "\n\n")
      render_news_items (i + 1) acc rest

/-- The `try` body of `GetStockNews`. The `limit` parameter is only
forwarded as a query parameter. -/
def get_stock_news_body (env : Env) (http : Http) (symbol : String) (limit : Int) :
    Except String String := do
  let params := [("ticker", pyUpper symbol), ("limit", toString limit),
    ("sort", "published_utc"), ("order", "desc")]
  let data ← make_polygon_request env.apiKey http "/v2/reference/news" params
  let status ← dictGet data "status" Val.none
  let resultsOpt ← dictGet data "results" Val.none
  if status == Val.str "OK" && truthy resultsOpt then
    let news_items ← dictItem data "results"
    let items ← pyIterate news_items
    render_news_items 1 ("Recent news for " ++ pyUpper symbol ++ ":\n\n") items
  else pure ("Error: Could not retrieve news for " ++ symbol)

/-- `GetStockNews`. -/
def get_stock_news (env : Env) (http : Http) (symbol : String) (limit : Int) : String :=
  match get_stock_news_body env http symbol limit with
  | .ok s => s
  | .error e => "Error fetching stock news: " ++ e

/-- The search-results loop of `SearchStocks`. -/
def render_search_items : Nat → String → List Val → Except String String
  | _, acc, [] => .ok acc
  | i, acc, m :: rest => do
      let symbolV ← dictGet m "ticker" (Val.str "N/A")
      let nameV ← dictGet m "name" (Val.str "N/A")
      let marketV ← dictGet m "market" (Val.str "N/A")
      let exchangeV ← dictGet m "primary_exchange" (Val.str "N/A")
      let acc := acc ++ (toString i ++ ". " ++ pyToString symbolV ++ " - " ++
        pyToString nameV ++ "\n")
      let acc := acc ++ ("   Market: " ++ pyToString marketV ++ " | Exchange: " ++
        pyToString exchangeV ++ "\n\n")
      render_search_items (i + 1) acc rest

/-- The `try` body of `SearchStocks`. Note the data-unavailable branch
returns a plain "No results found" string, with no error marker. -/
def search_stocks_body (env : Env) (http : Http) (query : String) (limit : Int) :
    Except String String := do
  let params := [("search", query), ("limit", toString limit), ("active", "true")]
  let data ← make_polygon_request env.apiKey http "/v3/reference/tickers" params
  let status ← dictGet data "status" Val.none
  let resultsOpt ← dictGet data "results" Val.none
  if status == Val.str "OK" && truthy resultsOpt then
    let found ← dictItem data "results"
    let items ← pyIterate found
    render_search_items 1 ("Search results for \x27" ++ query ++ "\x27:\n\n") items
  else pure ("No results found for \x27" ++ query ++ "\x27")

/-- `SearchStocks`. -/
def search_stocks (env : Env) (http : Http) (query : String) (limit : Int) : String :=
  match search_stocks_body env http query limit with
  | .ok s => s
  | .error e => "Error searching stocks: " ++ e

/-- The `try` body of `GetMarketStatus`: a tri-state on the `market`
field, with no status-field check at all. -/
def get_market_status_body (env : Env) (http : Http) : Except String String := do
  let data ← make_polygon_request env.apiKey http "/v1/marketstatus/now" []
  let m1 ← dictGet data "market" Val.none
  if m1 == Val.str "open" then pure "🟢 Market is currently OPEN"
  else do
    let m2 ← dictGet data "market" Val.none
    if m2 == Val.str "closed" then pure "🔴 Market is currently CLOSED"
    else do
      let m3 ← dictGet data "market" (Val.str "Unknown")
      pure ("Market status: " ++ pyToString m3)

/-- `GetMarketStatus`. -/
def get_market_status (env : Env) (http : Http) : String :=
  match get_market_status_body env http with
  | .ok s => s
  | .error e => "Error fetching market status: " ++ e

/-- The endpoint `get_stock_bars` constructs (trailing 30-day window). -/
def gsb_endpoint (env : Env) (symbol timespan : String) : String :=
  "/v2/aggs/ticker/" ++ pyUpper symbol ++ "/range/1/" ++ timespan ++ "/" ++
    env.daysAgo30 ++ "/" ++ env.today

/-- The bars loop of `GetStockBars`: direct `bar[...]` indexing (a
missing field raises `KeyError`), OHLC to two decimals, comma-separated
volume. -/
def render_bars (env : Env) : String → List Val → Except String String
  | acc, [] => .ok acc
  | acc, bar :: rest => do
      let t ← dictItem bar "t"
      let q ← valDiv t (Val.num 1000)
      let timestamp := env.fmtDateTime q
      let o ← dictItem bar "o"
      let oS ← fmtFixed2 o
      let h ← dictItem bar "h"
      let hS ← fmtFixed2 h
      let l ← dictItem bar "l"
      let lS ← fmtFixed2 l
      let c ← dictItem bar "c"
      let cS ← fmtFixed2 c
      let v ← dictItem bar "v"
      let vS ← fmtComma v
      let acc := acc ++ ("Date: " ++ timestamp ++ "\n")
      let acc := acc ++ ("Open: $" ++ oS ++ " | High: $" ++ hS ++ " | Low: $" ++ lS ++
        " | Close: $" ++ cS ++ "\n")
      let acc := acc ++ ("Volume: " ++ vS ++ " shares\n\n")
      render_bars env acc rest

/-- The `try` body of `GetStockBars`: `data["results"][-limit:]` keeps
the most recent `limit` bars (for `limit = 0` the slice is the whole
list). -/
def get_stock_bars_body (env : Env) (http : Http) (symbol timespan : String) (limit : Int) :
    Except String String := do
  let params := [("limit", toString limit)]
  let data ← make_polygon_request env.apiKey http (gsb_endpoint env symbol timespan) params
  let status ← dictGet data "status" Val.none
  let resultsOpt ← dictGet data "results" Val.none
  if (status == Val.str "OK" || status == Val.str "DELAYED") && truthy resultsOpt then
    let results ← dictItem data "results"
    let bars ← pySliceVal results (-limit)
    render_bars env ("Recent " ++ timespan ++ " bars for " ++ pyUpper symbol ++ ":\n\n") bars
  else pure ("Error: Could not retrieve bars for " ++ symbol)

/-- `GetStockBars`. -/
def get_stock_bars (env : Env) (http : Http) (symbol timespan : String) (limit : Int) : String :=
  match get_stock_bars_body env http symbol timespan limit with
  | .ok s => s
  | .error e => "Error fetching stock bars: " ++ e

/-- A simulated upstream returning status 200 with a fixed JSON value
(the "simulated upstream" used by the testable properties of the spec). -/
def constHttp (v : Val) : Http := fun _ _ => ⟨200, "", .ok v⟩

/-- A simulated upstream failing with an HTTP status code and body. -/
def httpStatus (code : Nat) (body : String) : Http := fun _ _ => ⟨code, body, .error "no json"⟩

/-- An aggregate-bars response document. -/
def aggResp (st : String) (bars : List Val) : Val :=
  .dict [("status", .str st), ("results", .list bars)]

/-- A bar with all six numeric fields. -/
def numBar (t o h l c v : Rat) : Val :=
  .dict [("t", .num t), ("o", .num o), ("h", .num h), ("l", .num l), ("c", .num c),
    ("v", .num v)]

/-- A concrete invocation context for witnesses. -/
def env0 : Env :=
  ⟨"KEY", "2025-01-10", "2025-01-05", "2024-12-11",
    fun _ => "2025-01-09", fun _ => "2025-01-09 00:00"⟩

attribute [local semireducible] Rat.mul Rat.add Rat.sub Rat.inv Rat.ofScientific

theorem bindOk {α β : Type} (a : α) (f : α → Except String β) :
    Bind.bind (Except.ok a) f = f a := rfl

theorem bindErr {α β : Type} (e : String) (f : α → Except String β) :
    Bind.bind (Except.error e : Except String α) f = Except.error e := rfl

theorem pureEq {α : Type} (a : α) : (Pure.pure a : Except String α) = Except.ok a := rfl

/-- A list with a distinguished last element is truthy. -/
theorem truthy_concat (xs : List Val) (b : Val) : truthy (Val.list (xs ++ [b])) = true := by
  cases xs <;> rfl

/-- Python `l[-1]` on a list with a distinguished last element. -/
theorem listIndex_concat (xs : List Val) (b : Val) :
    listIndex (Val.list (xs ++ [b])) (-1) = .ok b := by
  have hlen : ((xs ++ [b]).length : Int) = (xs.length : Int) + 1 := by
    simp
  simp only [listIndex, hlen]
  rw [if_pos (by omega), if_pos (by omega)]
  have hidx : (-1 + ((xs.length : Int) + 1)).toNat = xs.length := by omega
  rw [hidx]
  simp [List.getD_eq_getElem?_getD, List.getElem?_append_right]

/-- Python `xs[0:]` is the whole list. -/
theorem pySliceFrom_zero (xs : List Val) : pySliceFrom xs 0 = xs := by
  simp only [pySliceFrom]
  rw [if_neg (by omega)]
  have : (min (0 : Int) xs.length).toNat = 0 := by omega
  rw [this]
  rfl

/-- Division of numeric values with a nonzero denominator. -/
theorem valDiv_num_ok (x y : Rat) (h : y ≠ 0) :
    valDiv (Val.num x) (Val.num y) = .ok (x / y) := by
  simp [valDiv, toNum, h]

/-- Evaluation bridge for `GetStockPrice` against a simulated upstream
returning a success status and a bar list with a distinguished most
recent bar: the outcome is `price_report` on that bar, rendered through
the blanket exception handler. -/
theorem gsp_eval (env : Env) (st : String) (xs : List Val) (bar : Val) (symbol : String)
    (hst : st = "OK" ∨ st = "DELAYED") :
    get_stock_price env (constHttp (aggResp st (xs ++ [bar]))) symbol =
      match price_report env symbol bar with
      | .ok s => s
      | .error e => "❌ Error fetching stock price for " ++ pyUpper symbol ++ ": " ++ e := by
  have hcond : ((Val.str st == Val.str "OK" || Val.str st == Val.str "DELAYED") &&
      truthy (Val.list (xs ++ [bar]))) = true := by
    rw [truthy_concat]
    rcases hst with h | h <;> subst h <;> rfl
  simp only [get_stock_price, get_stock_price_body, make_polygon_request, constHttp,
    aggResp, dictGet, dictItem, lookupField, bindOk, pureEq, Option.getD_some,
    String.reduceBEq, if_true, Bool.false_eq_true, if_false]
  rw [hcond]
  simp only [if_true]
  rw [listIndex_concat]
  rfl

/-- Claim C1: for every one of the six tool operations and every input,
the operation returns the string its `try` body computes, and any
exception raised while building the request, calling the HTTP adapter
or formatting the response is caught inside the operation and converted
to an error string naming the subject of the operation and the exception
text — nothing propagates across the tool boundary. -/
theorem tool_ops_catch_exceptions (env : Env) (http : Http) (symbol query timespan : String)
    (limit : Int) :
    (∀ s, get_stock_price_body env http symbol = .ok s → get_stock_price env http symbol = s) ∧
    (∀ e, get_stock_price_body env http symbol = .error e →
      get_stock_price env http symbol =
        "❌ Error fetching stock price for " ++ pyUpper symbol ++ ": " ++ e) ∧
    (∀ s, get_stock_details_body env http symbol = .ok s →
      get_stock_details env http symbol = s) ∧
    (∀ e, get_stock_details_body env http symbol = .error e →
      get_stock_details env http symbol = "Error fetching stock details: " ++ e) ∧
    (∀ s, get_stock_news_body env http symbol limit = .ok s →
      get_stock_news env http symbol limit = s) ∧
    (∀ e, get_stock_news_body env http symbol limit = .error e →
      get_stock_news env http symbol limit = "Error fetching stock news: " ++ e) ∧
    (∀ s, search_stocks_body env http query limit = .ok s →
      search_stocks env http query limit = s) ∧
    (∀ e, search_stocks_body env http query limit = .error e →
      search_stocks env http query limit = "Error searching stocks: " ++ e) ∧
    (∀ s, get_market_status_body env http = .ok s → get_market_status env http = s) ∧
    (∀ e, get_market_status_body env http = .error e →
      get_market_status env http = "Error fetching market status: " ++ e) ∧
    (∀ s, get_stock_bars_body env http symbol timespan limit = .ok s →
      get_stock_bars env http symbol timespan limit = s) ∧
    (∀ e, get_stock_bars_body env http symbol timespan limit = .error e →
      get_stock_bars env http symbol timespan limit = "Error fetching stock bars: " ++ e) := by
  refine ⟨?_, ?_, ?_, ?_, ?_, ?_, ?_, ?_, ?_, ?_, ?_, ?_⟩ <;> intro x h
  · simp only [get_stock_price, h]
  · simp only [get_stock_price, h]
  · simp only [get_stock_details, h]
  · simp only [get_stock_details, h]
  · simp only [get_stock_news, h]
  · simp only [get_stock_news, h]
  · simp only [search_stocks, h]
  · simp only [search_stocks, h]
  · simp only [get_market_status, h]
  · simp only [get_market_status, h]
  · simp only [get_stock_bars, h]
  · simp only [get_stock_bars, h]

/-- Witness for C1 at a concrete failing upstream (HTTP 500): each of
the six operations returns its subject-naming error string carrying the
exception text of the adapter failure. -/
theorem tool_ops_catch_exceptions_witness :
    get_stock_price env0 (httpStatus 500 "boom") "aapl" =
      "❌ Error fetching stock price for AAPL: API request failed with status 500: boom" ∧
    get_stock_details env0 (httpStatus 500 "boom") "aapl" =
      "Error fetching stock details: API request failed with status 500: boom" ∧
    get_stock_news env0 (httpStatus 500 "boom") "aapl" 10 =
      "Error fetching stock news: API request failed with status 500: boom" ∧
    search_stocks env0 (httpStatus 500 "boom") "Apple" 10 =
      "Error searching stocks: API request failed with status 500: boom" ∧
    get_market_status env0 (httpStatus 500 "boom") =
      "Error fetching market status: API request failed with status 500: boom" ∧
    get_stock_bars env0 (httpStatus 500 "boom") "aapl" "day" 10 =
      "Error fetching stock bars: API request failed with status 500: boom" := by
  have h := tool_ops_catch_exceptions env0 (httpStatus 500 "boom") "aapl" "Apple" "day" 10
  exact ⟨(h.2.1 _ rfl).trans rfl, (h.2.2.2.1 _ rfl).trans rfl,
    (h.2.2.2.2.2.1 _ rfl).trans rfl, (h.2.2.2.2.2.2.2.1 _ rfl).trans rfl,
    (h.2.2.2.2.2.2.2.2.2.1 _ rfl).trans rfl, (h.2.2.2.2.2.2.2.2.2.2.2 _ rfl).trans rfl⟩

/-- Claim C3: the HTTP client adapter returns the parsed JSON body
exactly when the response status is 200, and on any other status fails
with an error message carrying the status code and the raw body text. -/
theorem polygon_request_status_dichotomy (apiKey : String) (http : Http) (endpoint : String)
    (params : List (String × String)) :
    ((http (BASE_URL ++ endpoint) (setParam params "apikey" apiKey)).status = 200 →
      make_polygon_request apiKey http endpoint params =
        (http (BASE_URL ++ endpoint) (setParam params "apikey" apiKey)).jsonBody) ∧
    ((http (BASE_URL ++ endpoint) (setParam params "apikey" apiKey)).status ≠ 200 →
      make_polygon_request apiKey http endpoint params =
        .error ("API request failed with status " ++
          toString (http (BASE_URL ++ endpoint) (setParam params "apikey" apiKey)).status ++
          ": " ++ (http (BASE_URL ++ endpoint) (setParam params "apikey" apiKey)).text)) ∧
    ((∃ v, make_polygon_request apiKey http endpoint params = .ok v) ↔
      ((http (BASE_URL ++ endpoint) (setParam params "apikey" apiKey)).status = 200 ∧
        ∃ v, (http (BASE_URL ++ endpoint) (setParam params "apikey" apiKey)).jsonBody = .ok v)) := by
  refine ⟨fun h => by simp [make_polygon_request, h], fun h => by simp [make_polygon_request, h],
    ?_⟩
  by_cases h : (http (BASE_URL ++ endpoint) (setParam params "apikey" apiKey)).status = 200
  · simp [make_polygon_request, h]
  · simp [make_polygon_request, h]

/-- Witness for C3: a 200 response yields its parsed body, a 404
response yields the status-and-body error. -/
theorem polygon_request_status_dichotomy_witness :
    make_polygon_request "KEY" (constHttp (Val.str "x")) "/e" [] = .ok (Val.str "x") ∧
    make_polygon_request "KEY" (httpStatus 404 "nf") "/e" [] =
      .error "API request failed with status 404: nf" := by
  refine ⟨(polygon_request_status_dichotomy "KEY" (constHttp (Val.str "x")) "/e" []).1 rfl, ?_⟩
  exact ((polygon_request_status_dichotomy "KEY" (httpStatus 404 "nf") "/e" []).2.1
    (by decide)).trans rfl

/-- Claim C8: with a success status and a most recent bar whose open is
the number 0 (close numeric), the percentage-change division raises
`ZeroDivisionError`, the blanket handler catches it, and the operation
returns the exception-branch error string rather than a price report,
even though all price data was present. -/
theorem price_zero_open_division_error (env : Env) (xs : List Val) (symbol : String)
    (qt qh ql qc qv : Rat) :
    get_stock_price env (constHttp (aggResp "OK" (xs ++ [numBar qt 0 qh ql qc qv]))) symbol =
      "❌ Error fetching stock price for " ++ pyUpper symbol ++ ": division by zero" := by
  have hpr : price_report env symbol (numBar qt 0 qh ql qc qv) = .error "division by zero" := rfl
  rw [gsp_eval env "OK" xs _ symbol (Or.inl rfl), hpr]
  simp only [String.append_assoc, String.reduceAppend]

theorem valBne_num_na (q : Rat) : (Val.num q != Val.str "N/A") = true := rfl

theorem valBne_na_na : (Val.str "N/A" != Val.str "N/A") = false := rfl

theorem valDiv_num_1000 (x : Rat) : valDiv (Val.num x) (Val.num 1000) = .ok (x / 1000) := by
  simp [valDiv, toNum]

/-- `price_report` on a fully numeric bar with nonzero open: the report
with the derived change values and direction glyph. -/
theorem price_report_numBar (env : Env) (symbol : String) (qt qo qh ql qc qv : Rat)
    (hqo : qo ≠ 0) :
    price_report env symbol (numBar qt qo qh ql qc qv) =
      .ok ("\n    📊 **" ++ pyUpper symbol ++ "** - " ++ env.fmtDate (qt / 1000) ++
        "\n\n    💰 **Price Data:**\n    • Open: $" ++ ratFixed2 qo ++
        "\n    • High: $" ++ ratFixed2 qh ++ "\n    • Low: $" ++ ratFixed2 ql ++
        "\n    • Close: $" ++ ratFixed2 qc ++
        "\n\n    📈 **Performance:**\n    " ++
        ("Change: $" ++ ratFixed2 (qc - qo) ++ " (" ++ ratFixed2 ((qc - qo) / qo * 100) ++
          "%) " ++
          (if qc - qo > 0 then "📈" else if qc - qo < 0 then "📉" else "➡️")) ++
        "\n\n    📊 **Volume:** " ++ commaRender qv ++
        " shares\n\n    ℹ️  *Data from most recent trading day*\n    ") := by
  have hdiv := valDiv_num_ok (qc - qo) qo hqo
  simp only [price_report, numBar, dictGet, lookupField, bindOk, pureEq, Option.getD_some,
    String.reduceBEq, if_true, Bool.false_eq_true, if_false, valBne_num_na, valBne_na_na,
    valDiv_num_1000, valSub, toNum, hdiv, fmtFixed2, fmtComma, Bool.and_self,
    eq_self_iff_true]

/-- Claim C4: when the most recent bar carries numeric open and close
fields with open nonzero (and numeric high/low, so the report renders),
the derived values in the report satisfy change = close − open and
change% = change/open × 100, and the direction glyph follows the sign
of close − open: rise when positive, fall when negative, flat when
zero. -/
theorem price_change_derivation (env : Env) (st : String) (xs : List Val) (symbol : String)
    (qt qo qh ql qc qv : Rat) (hst : st = "OK" ∨ st = "DELAYED") (hqo : qo ≠ 0) :
    get_stock_price env (constHttp (aggResp st (xs ++ [numBar qt qo qh ql qc qv]))) symbol =
      "\n    📊 **" ++ pyUpper symbol ++ "** - " ++ env.fmtDate (qt / 1000) ++
      "\n\n    💰 **Price Data:**\n    • Open: $" ++ ratFixed2 qo ++
      "\n    • High: $" ++ ratFixed2 qh ++ "\n    • Low: $" ++ ratFixed2 ql ++
      "\n    • Close: $" ++ ratFixed2 qc ++
      "\n\n    📈 **Performance:**\n    " ++
      ("Change: $" ++ ratFixed2 (qc - qo) ++ " (" ++ ratFixed2 ((qc - qo) / qo * 100) ++
        "%) " ++
        (if qc - qo > 0 then "📈" else if qc - qo < 0 then "📉" else "➡️")) ++
      "\n\n    📊 **Volume:** " ++ commaRender qv ++
      " shares\n\n    ℹ️  *Data from most recent trading day*\n    " := by
  rw [gsp_eval env st xs _ symbol hst, price_report_numBar env symbol qt qo qh ql qc qv hqo]

set_option maxRecDepth 4000 in
/-- Witness for C4: a concrete rising bar (open 10, close 11) yields
change 1.00, change% 10.00 and the rise glyph. -/
theorem price_change_derivation_witness :
    get_stock_price env0
        (constHttp (aggResp "OK" ([] ++ [numBar 1700000000000 10 12 9 11 1234567]))) "AAPL" =
      "\n    📊 **AAPL** - 2025-01-09\n\n    💰 **Price Data:**\n    • Open: $10.00\n    • High: $12.00\n    • Low: $9.00\n    • Close: $11.00\n\n    📈 **Performance:**\n    Change: $1.00 (10.00%) 📈\n\n    📊 **Volume:** 1,234,567 shares\n\n    ℹ️  *Data from most recent trading day*\n    " :=
  (price_change_derivation env0 "OK" [] "AAPL" 1700000000000 10 12 9 11 1234567
    (Or.inl rfl) (by norm_num)).trans (by decide)

/-- Claim C7: the input symbol is uppercased consistently in both the
constructed request path and the returned report text: the endpoint
embeds `pyUpper symbol`, the success report header embeds the same
`pyUpper symbol`, and the concrete input "aapl" uppercases to "AAPL". -/
theorem symbol_uppercased_consistently (env : Env) (st : String) (xs : List Val)
    (symbol : String) (qt qo qh ql qc qv : Rat) (hst : st = "OK" ∨ st = "DELAYED")
    (hqo : qo ≠ 0) :
    gsp_endpoint env symbol =
      "/v2/aggs/ticker/" ++ pyUpper symbol ++ "/range/1/day/" ++ env.daysAgo5 ++ "/" ++
        env.today ∧
    get_stock_price env (constHttp (aggResp st (xs ++ [numBar qt qo qh ql qc qv]))) symbol =
      "\n    📊 **" ++ pyUpper symbol ++ "** - " ++ env.fmtDate (qt / 1000) ++
      "\n\n    💰 **Price Data:**\n    • Open: $" ++ ratFixed2 qo ++
      "\n    • High: $" ++ ratFixed2 qh ++ "\n    • Low: $" ++ ratFixed2 ql ++
      "\n    • Close: $" ++ ratFixed2 qc ++
      "\n\n    📈 **Performance:**\n    " ++
      ("Change: $" ++ ratFixed2 (qc - qo) ++ " (" ++ ratFixed2 ((qc - qo) / qo * 100) ++
        "%) " ++
        (if qc - qo > 0 then "📈" else if qc - qo < 0 then "📉" else "➡️")) ++
      "\n\n    📊 **Volume:** " ++ commaRender qv ++
      " shares\n\n    ℹ️  *Data from most recent trading day*\n    " ∧
    pyUpper "aapl" = "AAPL" := by
  refine ⟨rfl, ?_, rfl⟩
  rw [gsp_eval env st xs _ symbol hst, price_report_numBar env symbol qt qo qh ql qc qv hqo]

set_option maxRecDepth 4000 in
/-- Witness for C7: input "aapl" produces request path segment AAPL and
an output report whose header shows AAPL. -/
theorem symbol_uppercased_consistently_witness :
    gsp_endpoint env0 "aapl" = "/v2/aggs/ticker/AAPL/range/1/day/2025-01-05/2025-01-10" ∧
    get_stock_price env0
        (constHttp (aggResp "OK" ([] ++ [numBar 1700000000000 10 12 9 11 1234567]))) "aapl" =
      "\n    📊 **AAPL** - 2025-01-09\n\n    💰 **Price Data:**\n    • Open: $10.00\n    • High: $12.00\n    • Low: $9.00\n    • Close: $11.00\n\n    📈 **Performance:**\n    Change: $1.00 (10.00%) 📈\n\n    📊 **Volume:** 1,234,567 shares\n\n    ℹ️  *Data from most recent trading day*\n    " := by
  have h := symbol_uppercased_consistently env0 "OK" [] "aapl" 1700000000000 10 12 9 11 1234567
    (Or.inl rfl) (by norm_num)
  exact ⟨h.1.trans (by decide), h.2.1.trans (by decide)⟩

set_option maxRecDepth 4000 in
/-- Counterexample for C2: a success-status response whose most recent
bar lacks the numeric open field does not render "N/A" in a success
report — the `:.2f` interpolation on the placeholder raises, and the
operation returns its exception-branch error string, which contains no
"N/A" at all. -/
theorem price_missing_open_not_na :
    get_stock_price env0
        (constHttp (aggResp "OK"
          [Val.dict [("h", .num 190), ("l", .num 180), ("c", .num 185), ("v", .num 1000),
            ("t", .num 1700000000000)]])) "AAPL" =
      "❌ Error fetching stock price for AAPL: Unknown format code \x27f\x27 for object of type \x27str\x27" ∧
    strContainsStr
      (get_stock_price env0
        (constHttp (aggResp "OK"
          [Val.dict [("h", .num 190), ("l", .num 180), ("c", .num 185), ("v", .num 1000),
            ("t", .num 1700000000000)]])) "AAPL")
      "N/A" = false := by
  exact ⟨by decide, by decide⟩

set_option maxRecDepth 4000 in
/-- Claim C2 as amended: a missing volume or timestamp renders as the
"N/A" placeholder in a success report without failing, but a most
recent bar missing a numeric open/high/low/close field makes the
`:.2f` interpolation raise on the textual placeholder, so the blanket
handler returns the exception error string instead of a success
report. -/
theorem price_missing_field_behavior (env : Env) (xs : List Val) (symbol : String)
    (qh ql qc qt : Rat) :
    get_stock_price env
        (constHttp (aggResp "OK"
          (xs ++ [Val.dict [("h", .num qh), ("l", .num ql), ("c", .num qc), ("t", .num qt)]])))
        symbol =
      "❌ Error fetching stock price for " ++ pyUpper symbol ++ ": " ++
        "Unknown format code \x27f\x27 for object of type \x27str\x27" ∧
    get_stock_price env0
        (constHttp (aggResp "OK" [Val.dict [("o", .num 10), ("h", .num 12), ("l", .num 9),
          ("c", .num 11)]])) "AAPL" =
      "\n    📊 **AAPL** - N/A\n\n    💰 **Price Data:**\n    • Open: $10.00\n    • High: $12.00\n    • Low: $9.00\n    • Close: $11.00\n\n    📈 **Performance:**\n    Change: $1.00 (10.00%) 📈\n\n    📊 **Volume:** N/A shares\n\n    ℹ️  *Data from most recent trading day*\n    " := by
  constructor
  · have hpr : price_report env symbol
        (Val.dict [("h", .num qh), ("l", .num ql), ("c", .num qc), ("t", .num qt)]) =
        .error "Unknown format code \x27f\x27 for object of type \x27str\x27" := rfl
    rw [gsp_eval env "OK" xs _ symbol (Or.inl rfl), hpr]
  · decide

set_option maxRecDepth 4000 in
/-- Counterexample for C5: SearchStocks against an upstream error
status returns a string with neither an "error" nor a "could not
retrieve" marker, in either letter case. -/
theorem search_error_marker_missing :
    search_stocks env0 (constHttp (Val.dict [("status", Val.str "ERROR")])) "Apple" 10 =
      "No results found for \x27Apple\x27" ∧
    strContainsStr "No results found for \x27Apple\x27" "Error" = false ∧
    strContainsStr "No results found for \x27Apple\x27" "error" = false ∧
    strContainsStr "No results found for \x27Apple\x27" "Could not retrieve" = false ∧
    strContainsStr "No results found for \x27Apple\x27" "could not retrieve" = false := by
  exact ⟨by decide, by decide, by decide, by decide, by decide⟩

theorem truthy_none_false : truthy Val.none = false := rfl

theorem valBeq_str (a b : String) : (Val.str a == Val.str b) = (a == b) := rfl

/-- Claim C5 as amended: on an upstream response with no usable results
(here: any status value, results absent), GetStockPrice,
GetStockDetails, GetStockNews and GetStockBars return strings carrying
an explicit "Error"/"Could not retrieve" marker, but SearchStocks
returns a plain "No results found" string and GetMarketStatus a plain
"Market status: ..." string, neither of which carries such a marker;
none of the six operations raises. -/
theorem unavailable_data_responses (env : Env) (symbol query timespan st : String)
    (limit : Int) :
    get_stock_price env (constHttp (Val.dict [("status", Val.str st)])) symbol =
      "❌ Error: Could not retrieve data for " ++ pyUpper symbol ++ ".\nStatus: " ++ st ++
        "\nMessage: " ++ "No additional info" ∧
    get_stock_details env (constHttp (Val.dict [("status", Val.str st)])) symbol =
      "Error: Could not retrieve details for " ++ symbol ∧
    get_stock_news env (constHttp (Val.dict [("status", Val.str st)])) symbol limit =
      "Error: Could not retrieve news for " ++ symbol ∧
    search_stocks env (constHttp (Val.dict [("status", Val.str st)])) query limit =
      "No results found for \x27" ++ query ++ "\x27" ∧
    get_market_status env (constHttp (Val.dict [("status", Val.str st)])) =
      "Market status: Unknown" ∧
    get_stock_bars env (constHttp (Val.dict [("status", Val.str st)])) symbol timespan limit =
      "Error: Could not retrieve bars for " ++ symbol := by
  refine ⟨?_, ?_, ?_, ?_, rfl, ?_⟩ <;>
    simp only [get_stock_price, get_stock_price_body, get_stock_details,
      get_stock_details_body, get_stock_news, get_stock_news_body, search_stocks,
      search_stocks_body, get_stock_bars, get_stock_bars_body, make_polygon_request,
      constHttp, dictGet, dictItem, lookupField, bindOk, pureEq, Option.getD_some,
      Option.getD_none, String.reduceBEq, if_true, Bool.false_eq_true, if_false,
      truthy_none_false, Bool.and_false, pyToString]

/-- Claim C6: GetStockBars with limit 3 against a success response of
10 bars reports exactly the 3 most recent bars, preserving their order,
each with its date, 2-decimal OHLC and comma-separated volume. -/
theorem bars_limit_three_most_recent (env : Env) (symbol timespan : String)
    (b0 b1 b2 b3 b4 b5 b6 : Val)
    (t7 o7 h7 l7 c7 v7 t8 o8 h8 l8 c8 v8 t9 o9 h9 l9 c9 v9 : Rat) :
    get_stock_bars env
        (constHttp (aggResp "OK"
          [b0, b1, b2, b3, b4, b5, b6, numBar t7 o7 h7 l7 c7 v7, numBar t8 o8 h8 l8 c8 v8,
            numBar t9 o9 h9 l9 c9 v9])) symbol timespan 3 =
      "Recent " ++ timespan ++ " bars for " ++ pyUpper symbol ++ ":\n\n" ++
        ("Date: " ++ env.fmtDateTime (t7 / 1000) ++ "\n") ++
        ("Open: $" ++ ratFixed2 o7 ++ " | High: $" ++ ratFixed2 h7 ++ " | Low: $" ++
          ratFixed2 l7 ++ " | Close: $" ++ ratFixed2 c7 ++ "\n") ++
        ("Volume: " ++ commaRender v7 ++ " shares\n\n") ++
        ("Date: " ++ env.fmtDateTime (t8 / 1000) ++ "\n") ++
        ("Open: $" ++ ratFixed2 o8 ++ " | High: $" ++ ratFixed2 h8 ++ " | Low: $" ++
          ratFixed2 l8 ++ " | Close: $" ++ ratFixed2 c8 ++ "\n") ++
        ("Volume: " ++ commaRender v8 ++ " shares\n\n") ++
        ("Date: " ++ env.fmtDateTime (t9 / 1000) ++ "\n") ++
        ("Open: $" ++ ratFixed2 o9 ++ " | High: $" ++ ratFixed2 h9 ++ " | Low: $" ++
          ratFixed2 l9 ++ " | Close: $" ++ ratFixed2 c9 ++ "\n") ++
        ("Volume: " ++ commaRender v9 ++ " shares\n\n") := rfl

theorem truthy_cons (y : Val) (ys : List Val) : truthy (Val.list (y :: ys)) = true := rfl

/-- Claim C9: GetStockBars invoked with limit = 0 against a non-empty
success results list: the slice `results[-0:]` selects the entire list,
so the report renders every returned bar rather than zero bars. -/
theorem bars_limit_zero_full_list (env : Env) (symbol timespan st : String) (xs : List Val)
    (out : String) (hst : st = "OK" ∨ st = "DELAYED") (hne : xs ≠ [])
    (hr : render_bars env ("Recent " ++ timespan ++ " bars for " ++ pyUpper symbol ++ ":\n\n")
      xs = .ok out) :
    get_stock_bars env (constHttp (aggResp st xs)) symbol timespan 0 = out := by
  obtain ⟨y, ys, rfl⟩ : ∃ y ys, xs = y :: ys := by
    cases xs with
    | nil => exact absurd rfl hne
    | cons y ys => exact ⟨y, ys, rfl⟩
  have hcond : ((Val.str st == Val.str "OK" || Val.str st == Val.str "DELAYED") &&
      truthy (Val.list (y :: ys))) = true := by
    rw [truthy_cons]
    rcases hst with h | h <;> subst h <;> rfl
  simp only [get_stock_bars, get_stock_bars_body, make_polygon_request, constHttp,
    aggResp, dictGet, dictItem, lookupField, bindOk, pureEq, Option.getD_some,
    String.reduceBEq, if_true, Bool.false_eq_true, if_false]
  rw [hcond]
  simp only [if_true, pySliceVal, neg_zero, pySliceFrom_zero, bindOk]
  rw [hr]

set_option maxRecDepth 8000 in
/-- Witness for C9: one bar, limit 0 — the report shows that bar. -/
theorem bars_limit_zero_full_list_witness :
    get_stock_bars env0 (constHttp (aggResp "OK" [numBar 1000 1 2 3 4 5000000])) "aapl" "day"
        0 =
      "Recent day bars for AAPL:\n\nDate: 2025-01-09 00:00\nOpen: $1.00 | High: $2.00 | Low: $3.00 | Close: $4.00\nVolume: 5,000,000 shares\n\n" :=
  bars_limit_zero_full_list env0 "aapl" "day" "OK" [numBar 1000 1 2 3 4 5000000] _
    (Or.inl rfl) (List.cons_ne_nil _ _) rfl

/-- Claim C10: GetStockNews truncates nothing locally: for every limit,
the success report is the rendering of the entire upstream results
list (the limit is only forwarded to the upstream request). -/
theorem news_no_local_truncation (env : Env) (symbol : String) (limit : Int)
    (items : List Val) (out : String) (hne : items ≠ [])
    (hr : render_news_items 1 ("Recent news for " ++ pyUpper symbol ++ ":\n\n") items =
      .ok out) :
    get_stock_news env
        (constHttp (Val.dict [("status", Val.str "OK"), ("results", Val.list items)]))
        symbol limit = out := by
  obtain ⟨y, ys, rfl⟩ : ∃ y ys, items = y :: ys := by
    cases items with
    | nil => exact absurd rfl hne
    | cons y ys => exact ⟨y, ys, rfl⟩
  simp only [get_stock_news, get_stock_news_body, make_polygon_request, constHttp,
    dictGet, dictItem, lookupField, bindOk, pureEq, Option.getD_some, String.reduceBEq,
    if_true, Bool.false_eq_true, if_false, truthy_cons, Bool.and_self, Bool.and_true,
    valBeq_str, pyIterate]
  rw [hr]

set_option maxRecDepth 8000 in
/-- Witness for C10: two news items with limit 1 — the report contains
both items. -/
theorem news_no_local_truncation_witness :
    get_stock_news env0
        (constHttp (Val.dict [("status", Val.str "OK"),
          ("results", Val.list [Val.dict [("title", Val.str "A")],
            Val.dict [("title", Val.str "B")]])]))
        "AAPL" 1 =
      "Recent news for AAPL:\n\n1. A\n   Author: N/A | Published: N/A\n   Description: N/A...\n   URL: N/A\n\n2. B\n   Author: N/A | Published: N/A\n   Description: N/A...\n   URL: N/A\n\n" :=
  news_no_local_truncation env0 "AAPL" 1 _ _ (List.cons_ne_nil _ _) rfl

end InvestingMCP
